import Mathlib

/-! Shallow embedding of the financial projection and scoring engine of the
valunatics repository, together with proofs of the specification claims.

Embedded code:
* `calculateFinancialScore` and the assessment HTTP handler from
  `project/supabase/functions/financial-advisor/index.ts` (numbers as `ℚ`,
  JS `Math.round` as `⌊x + 1/2⌋`, JS string truthiness as `≠ ""`,
  JS number truthiness as `≠ 0`).  The `riskAreas`/`strengths` lists are
  display strings built with `toFixed` formatting and are not needed by any
  claim, so they are not modelled; `recommendations` is modelled in full.
* `generateMockFinancialPlan` from `src/services/aiService.ts` (the
  `summary`/`milestones` display strings built with `toLocaleString` and
  `toFixed` are not modelled; `monthlySavings` and `monthlyPlans` are).
* `calculateProjection` / `calculateScenarioResults` and the
  `FINANCIAL_ASSUMPTIONS` table from
  `src/components/InvestmentScenarioSimulator.tsx` (values in `ℝ` because the
  code uses `Math.sqrt` and `Math.pow`; the unseeded `Math.random()` stream is
  an explicit parameter `rand : ℕ → ℝ`, draw `k` standing for the k-th call).
* the asset-allocation table of `calculateRetirementProjection` from
  `src/components/WealthManagementTools.tsx`.
-/

namespace Valunatics

/-! ScoreCalculator (financial-advisor/index.ts) -/

/-- The riskTolerance enum low | medium | high of `AssessmentRequest`. -/
inductive RiskLevel
  | low
  | medium
  | high
deriving DecidableEq, Repr

/-- Structure `AssessmentRequest` of financial-advisor/index.ts. -/
structure AssessmentRequest where
  monthlyIncome : ℚ
  monthlyExpenses : ℚ
  totalDebt : ℚ
  savingsAmount : ℚ
  emergencyFundMonths : ℚ
  shortTermGoals : String
  longTermGoals : String
  riskTolerance : RiskLevel
deriving DecidableEq, Repr

/-- The category enum poor | fair | good | excellent. -/
inductive Category
  | poor
  | fair
  | good
  | excellent
deriving DecidableEq, Repr

/-- JS `Math.round`: round half up, i.e. `⌊x + 1/2⌋`. -/
def jsRound (x : ℚ) : ℤ := ⌊x + 1/2⌋

/-- Source: `const savingsRate = (data.monthlyIncome - data.monthlyExpenses) / data.monthlyIncome`. -/
def savingsRate (d : AssessmentRequest) : ℚ :=
  (d.monthlyIncome - d.monthlyExpenses) / d.monthlyIncome

/-- Savings rate score (0-25 points), the first if/else ladder. -/
def savingsRateScore (d : AssessmentRequest) : ℚ :=
  if savingsRate d ≥ 0.25 then 25
  else if savingsRate d ≥ 0.20 then 22
  else if savingsRate d ≥ 0.15 then 20
  else if savingsRate d ≥ 0.10 then 15
  else if savingsRate d ≥ 0.05 then 10
  else if savingsRate d > 0 then 5
  else 0

/-- Source: `const debtToIncomeRatio = data.totalDebt / annualIncome` with
`annualIncome = data.monthlyIncome * 12`. -/
def debtToIncomeRatioOf (d : AssessmentRequest) : ℚ :=
  d.totalDebt / (d.monthlyIncome * 12)

/-- Debt management score (0-25 points). -/
def debtManagementScore (d : AssessmentRequest) : ℚ :=
  if debtToIncomeRatioOf d ≤ 0.3 then 25
  else if debtToIncomeRatioOf d ≤ 0.5 then 20
  else if debtToIncomeRatioOf d ≤ 0.7 then 15
  else if debtToIncomeRatioOf d ≤ 1.0 then 10
  else 5

/-- Emergency fund score (0-20 points). -/
def emergencyFundScore (d : AssessmentRequest) : ℚ :=
  if d.emergencyFundMonths ≥ 6 then 20
  else if d.emergencyFundMonths ≥ 4 then 16
  else if d.emergencyFundMonths ≥ 3 then 12
  else if d.emergencyFundMonths ≥ 1 then 8
  else if d.emergencyFundMonths > 0 then 4
  else 0

/-- Source: `const expenseRatio = data.monthlyExpenses / data.monthlyIncome`. -/
def expenseRatioOf (d : AssessmentRequest) : ℚ :=
  d.monthlyExpenses / d.monthlyIncome

/-- Expense management score (0-15 points). -/
def expenseManagementScore (d : AssessmentRequest) : ℚ :=
  if expenseRatioOf d ≤ 0.5 then 15
  else if expenseRatioOf d ≤ 0.65 then 12
  else if expenseRatioOf d ≤ 0.75 then 10
  else if expenseRatioOf d ≤ 0.85 then 7
  else 3

/-- Goal planning score (0-15 points); JS truthiness of a string is `≠ ""`. -/
def goalPlanningScore (d : AssessmentRequest) : ℚ :=
  if d.shortTermGoals ≠ "" ∧ d.longTermGoals ≠ "" then 15
  else if d.shortTermGoals ≠ "" ∨ d.longTermGoals ≠ "" then 8
  else 0

/-- Source: `const totalScore = Math.round(scores.savingsRate + ... + scores.goalPlanning)`. -/
def totalScore (d : AssessmentRequest) : ℤ :=
  jsRound (savingsRateScore d + debtManagementScore d + emergencyFundScore d +
    expenseManagementScore d + goalPlanningScore d)

/-- The final category ladder of `calculateFinancialScore`. -/
def categoryOf (s : ℤ) : Category :=
  if s ≥ 80 then .excellent
  else if s ≥ 60 then .good
  else if s ≥ 40 then .fair
  else .poor

/-- The always-appended goal recommendation when at least one goal is set. -/
def recGoalSet : String :=
  "Create a timeline and savings plan for your goals. Break long-term goals into smaller milestones."

/-- The always-appended goal recommendation when no goal is set. -/
def recGoalUnset : String :=
  "Define clear short and long-term financial goals. Having specific targets helps motivate saving and investing."

/-- The `recommendations` array of `calculateFinancialScore`, pushes in source
order. -/
def recommendationsOf (d : AssessmentRequest) : List String :=
  (if savingsRate d < 0.10 then
    ["Increase your monthly savings to at least 10% of income. Review expenses and identify areas to reduce."]
  else []) ++
  (if debtToIncomeRatioOf d > 0.5 then
    ["Create a debt reduction strategy. Focus on paying down high-interest debt first (credit cards, personal loans)."]
  else []) ++
  (if d.emergencyFundMonths < 3 then
    ["Build an emergency fund covering 3-6 months of expenses. Set up automatic monthly transfers to savings."]
  else []) ++
  (if d.monthlyExpenses > d.monthlyIncome * 0.85 then
    ["Review and reduce discretionary spending. Create a detailed budget tracking each expense category."]
  else []) ++
  (if d.shortTermGoals ≠ "" ∨ d.longTermGoals ≠ "" then [recGoalSet] else [recGoalUnset]) ++
  (if d.savingsAmount > 0 then
    ["Consider diversifying your savings across high-yield savings accounts and appropriate investments based on your risk tolerance."]
  else [])

/-- Structure `AssessmentResult` (the `riskAreas`/`strengths` display lists are outside
the modelled claims). -/
structure AssessmentResult where
  score : ℤ
  category : Category
  recommendations : List String
deriving DecidableEq, Repr

/-- Function `calculateFinancialScore` of financial-advisor/index.ts. -/
def calculateFinancialScore (d : AssessmentRequest) : AssessmentResult :=
  { score := totalScore d
    category := categoryOf (totalScore d)
    recommendations := recommendationsOf d }

/-- The worked example of the spec, section 8. -/
def exampleRequest : AssessmentRequest :=
  { monthlyIncome := 5000
    monthlyExpenses := 3000
    totalDebt := 10000
    savingsAmount := 5000
    emergencyFundMonths := 4
    shortTermGoals := "x"
    longTermGoals := "y"
    riskTolerance := .medium }

/-- C1: for the snapshot monthlyIncome=5000, monthlyExpenses=3000,
totalDebt=10000, savingsAmount=5000, emergencyFundMonths=4,
shortTermGoals="x", longTermGoals="y", riskTolerance=medium, the score
calculator produces sub-scores 25 (savings rate), 25 (debt management),
16 (emergency fund), 12 (expense ratio), 15 (goal planning), total score 93
and category excellent. -/
theorem exampleRequest_score :
    savingsRateScore exampleRequest = 25 ∧
    debtManagementScore exampleRequest = 25 ∧
    emergencyFundScore exampleRequest = 16 ∧
    expenseManagementScore exampleRequest = 12 ∧
    goalPlanningScore exampleRequest = 15 ∧
    (calculateFinancialScore exampleRequest).score = 93 ∧
    (calculateFinancialScore exampleRequest).category = .excellent := by
  have hx : ¬(("x" : String) = "") := by decide
  have hy : ¬(("y" : String) = "") := by decide
  norm_num [calculateFinancialScore, totalScore, jsRound, savingsRateScore,
    debtManagementScore, emergencyFundScore, expenseManagementScore,
    goalPlanningScore, savingsRate, debtToIncomeRatioOf, expenseRatioOf,
    categoryOf, exampleRequest, hx, hy, Int.floor_eq_iff]

/-- Each if/else ladder of the savings-rate score yields a value in [0, 25]. -/
lemma savingsRateScore_mem (d : AssessmentRequest) :
    0 ≤ savingsRateScore d ∧ savingsRateScore d ≤ 25 := by
  unfold savingsRateScore; split_ifs <;> norm_num

/-- The debt-management ladder yields a value in [5, 25]: its final else branch
awards 5 points, never 0. -/
lemma debtManagementScore_mem (d : AssessmentRequest) :
    5 ≤ debtManagementScore d ∧ debtManagementScore d ≤ 25 := by
  unfold debtManagementScore; split_ifs <;> norm_num

/-- The emergency-fund ladder yields a value in [0, 20]. -/
lemma emergencyFundScore_mem (d : AssessmentRequest) :
    0 ≤ emergencyFundScore d ∧ emergencyFundScore d ≤ 20 := by
  unfold emergencyFundScore; split_ifs <;> norm_num

/-- The expense-management ladder yields a value in [3, 15]: its final else
branch awards 3 points, never 0. -/
lemma expenseManagementScore_mem (d : AssessmentRequest) :
    3 ≤ expenseManagementScore d ∧ expenseManagementScore d ≤ 15 := by
  unfold expenseManagementScore; split_ifs <;> norm_num

/-- The goal-planning ladder yields a value in [0, 15]. -/
lemma goalPlanningScore_mem (d : AssessmentRequest) :
    0 ≤ goalPlanningScore d ∧ goalPlanningScore d ≤ 15 := by
  unfold goalPlanningScore; split_ifs <;> norm_num

/-- The rounded total always lies in [8, 100]. -/
lemma totalScore_mem (d : AssessmentRequest) :
    8 ≤ totalScore d ∧ totalScore d ≤ 100 := by
  obtain ⟨h1, h1u⟩ := savingsRateScore_mem d
  obtain ⟨h2, h2u⟩ := debtManagementScore_mem d
  obtain ⟨h3, h3u⟩ := emergencyFundScore_mem d
  obtain ⟨h4, h4u⟩ := expenseManagementScore_mem d
  obtain ⟨h5, h5u⟩ := goalPlanningScore_mem d
  unfold totalScore jsRound
  constructor
  · exact Int.le_floor.mpr (by push_cast; linarith)
  · have h2 : ⌊(savingsRateScore d + debtManagementScore d + emergencyFundScore d +
        expenseManagementScore d + goalPlanningScore d) + 1/2⌋ < (101 : ℤ) :=
      Int.floor_lt.mpr (by push_cast; linarith)
    omega

/-- The category ladder agrees with the documented thresholds, as an iff
for every integer score. -/
lemma categoryOf_spec (z : ℤ) :
    (categoryOf z = .excellent ↔ 80 ≤ z) ∧
    (categoryOf z = .good ↔ 60 ≤ z ∧ z < 80) ∧
    (categoryOf z = .fair ↔ 40 ≤ z ∧ z < 60) ∧
    (categoryOf z = .poor ↔ z < 40) := by
  unfold categoryOf
  split_ifs with h1 h2 h3 <;> simp_all <;> omega

/-- C3: for every snapshot with positive income and non-negative remaining
numeric fields, the score lies in [0, 100] and the category matches the fixed
thresholds: excellent iff score ≥ 80, good iff 60 ≤ score < 80, fair iff
40 ≤ score < 60, poor iff score < 40. -/
theorem calculateFinancialScore_range_and_category (d : AssessmentRequest)
    (hinc : 0 < d.monthlyIncome) (hexp : 0 ≤ d.monthlyExpenses)
    (hdebt : 0 ≤ d.totalDebt) (hsav : 0 ≤ d.savingsAmount)
    (hef : 0 ≤ d.emergencyFundMonths) :
    0 ≤ (calculateFinancialScore d).score ∧ (calculateFinancialScore d).score ≤ 100 ∧
    ((calculateFinancialScore d).category = .excellent ↔ 80 ≤ (calculateFinancialScore d).score) ∧
    ((calculateFinancialScore d).category = .good ↔
      60 ≤ (calculateFinancialScore d).score ∧ (calculateFinancialScore d).score < 80) ∧
    ((calculateFinancialScore d).category = .fair ↔
      40 ≤ (calculateFinancialScore d).score ∧ (calculateFinancialScore d).score < 60) ∧
    ((calculateFinancialScore d).category = .poor ↔ (calculateFinancialScore d).score < 40) := by
  obtain ⟨hlo, hhi⟩ := totalScore_mem d
  obtain ⟨he, hg, hf, hp⟩ := categoryOf_spec (totalScore d)
  exact ⟨by simp only [calculateFinancialScore]; omega,
         by simp only [calculateFinancialScore]; omega,
         he, hg, hf, hp⟩

/-- Witness for C3 at the worked example. -/
theorem calculateFinancialScore_range_and_category_witness :
    0 < exampleRequest.monthlyIncome ∧ 0 ≤ exampleRequest.monthlyExpenses ∧
    0 ≤ exampleRequest.totalDebt ∧ 0 ≤ exampleRequest.savingsAmount ∧
    0 ≤ exampleRequest.emergencyFundMonths ∧
    (0 ≤ (calculateFinancialScore exampleRequest).score ∧
     (calculateFinancialScore exampleRequest).score ≤ 100 ∧
     ((calculateFinancialScore exampleRequest).category = .excellent ↔
       80 ≤ (calculateFinancialScore exampleRequest).score) ∧
     ((calculateFinancialScore exampleRequest).category = .good ↔
       60 ≤ (calculateFinancialScore exampleRequest).score ∧
       (calculateFinancialScore exampleRequest).score < 80) ∧
     ((calculateFinancialScore exampleRequest).category = .fair ↔
       40 ≤ (calculateFinancialScore exampleRequest).score ∧
       (calculateFinancialScore exampleRequest).score < 60) ∧
     ((calculateFinancialScore exampleRequest).category = .poor ↔
       (calculateFinancialScore exampleRequest).score < 40)) :=
  ⟨by norm_num [exampleRequest], by norm_num [exampleRequest],
   by norm_num [exampleRequest], by norm_num [exampleRequest],
   by norm_num [exampleRequest],
   calculateFinancialScore_range_and_category exampleRequest
     (by norm_num [exampleRequest]) (by norm_num [exampleRequest])
     (by norm_num [exampleRequest]) (by norm_num [exampleRequest])
     (by norm_num [exampleRequest])⟩

/-- C9: for every input with positive income the debt-management sub-score is
at least 5 and the expense-management sub-score at least 3, so the total score
is at least 8; every poor result lies in [8, 40). -/
theorem calculateFinancialScore_min_eight (d : AssessmentRequest)
    (hinc : 0 < d.monthlyIncome) :
    5 ≤ debtManagementScore d ∧ 3 ≤ expenseManagementScore d ∧
    8 ≤ (calculateFinancialScore d).score ∧
    ((calculateFinancialScore d).category = .poor →
      8 ≤ (calculateFinancialScore d).score ∧ (calculateFinancialScore d).score < 40) := by
  obtain ⟨hlo, _⟩ := totalScore_mem d
  obtain ⟨_, _, _, hp⟩ := categoryOf_spec (totalScore d)
  refine ⟨(debtManagementScore_mem d).1, (expenseManagementScore_mem d).1, hlo, fun h => ?_⟩
  simp only [calculateFinancialScore] at h ⊢
  exact ⟨hlo, hp.mp h⟩

/-- A profile scoring in the poor band: zero savings rate, debt above annual
income, no emergency fund, no goals. -/
def poorRequest : AssessmentRequest :=
  { monthlyIncome := 1000
    monthlyExpenses := 1000
    totalDebt := 20000
    savingsAmount := 0
    emergencyFundMonths := 0
    shortTermGoals := ""
    longTermGoals := ""
    riskTolerance := .low }

/-- Witness for C9 at a poor-band profile. -/
theorem calculateFinancialScore_min_eight_witness :
    0 < poorRequest.monthlyIncome ∧
    (5 ≤ debtManagementScore poorRequest ∧ 3 ≤ expenseManagementScore poorRequest ∧
     8 ≤ (calculateFinancialScore poorRequest).score ∧
     ((calculateFinancialScore poorRequest).category = .poor →
       8 ≤ (calculateFinancialScore poorRequest).score ∧
       (calculateFinancialScore poorRequest).score < 40)) :=
  ⟨by norm_num [poorRequest],
   calculateFinancialScore_min_eight poorRequest (by norm_num [poorRequest])⟩

/-- C10: the recommendations list is never empty — the goal-planning push is
unconditional (one message if at least one goal is set, another if none is), so
one of the two goal messages always occurs. -/
theorem recommendations_nonempty (d : AssessmentRequest) :
    (calculateFinancialScore d).recommendations ≠ [] ∧
    (recGoalSet ∈ (calculateFinancialScore d).recommendations ∨
     recGoalUnset ∈ (calculateFinancialScore d).recommendations) := by
  simp only [calculateFinancialScore, recommendationsOf]
  by_cases h : d.shortTermGoals ≠ "" ∨ d.longTermGoals ≠ "" <;>
    simp [h, List.mem_append]

/-! The financial-assessment HTTP handler (financial-advisor/index.ts).

`if (!data.monthlyIncome || !data.shortTermGoals || !data.longTermGoals)` the
handler answers 400 "Missing required fields"; otherwise it answers 200 with
`calculateFinancialScore(data)`.  JS truthiness: a number is falsy exactly when
it is 0 (NaN is outside the rational model), a string exactly when it is
empty. -/

/-- The financial-assessment request handler, success as `Except.ok`, the 400
error response as `Except.error`. -/
def financialAssessmentHandler (d : AssessmentRequest) : Except String AssessmentResult :=
  if d.monthlyIncome = 0 ∨ d.shortTermGoals = "" ∨ d.longTermGoals = "" then
    .error "Missing required fields"
  else
    .ok (calculateFinancialScore d)

/-- A request with negative income and both goals set. -/
def negativeIncomeRequest : AssessmentRequest :=
  { monthlyIncome := -1
    monthlyExpenses := 0
    totalDebt := 0
    savingsAmount := 0
    emergencyFundMonths := 0
    shortTermGoals := "x"
    longTermGoals := "y"
    riskTolerance := .medium }

/-- C8 counterexample: a request with monthlyIncome = -1 ≤ 0 is NOT rejected —
the truthiness check only catches income 0, so the score calculator is invoked
and a result is produced. -/
theorem handler_accepts_negative_income :
    negativeIncomeRequest.monthlyIncome ≤ 0 ∧
    financialAssessmentHandler negativeIncomeRequest =
      .ok (calculateFinancialScore negativeIncomeRequest) := by
  constructor
  · norm_num [negativeIncomeRequest]
  · have hx : ¬(("x" : String) = "") := by decide
    have hy : ¬(("y" : String) = "") := by decide
    have hi : ¬(negativeIncomeRequest.monthlyIncome = 0) := by
      norm_num [negativeIncomeRequest]
    simp [financialAssessmentHandler, hx, hy, hi, negativeIncomeRequest]

/-- C8 amended: a request with monthlyIncome = 0 fails with the error response
and no score result is produced; the calculator runs only when the income is
nonzero and both goal strings are non-empty. -/
theorem handler_rejects_zero_income (d : AssessmentRequest)
    (h : d.monthlyIncome = 0) :
    financialAssessmentHandler d = .error "Missing required fields" := by
  simp [financialAssessmentHandler, h]

/-- A request with income 0. -/
def zeroIncomeRequest : AssessmentRequest :=
  { monthlyIncome := 0
    monthlyExpenses := 0
    totalDebt := 0
    savingsAmount := 0
    emergencyFundMonths := 0
    shortTermGoals := "x"
    longTermGoals := "y"
    riskTolerance := .medium }

/-- Witness for the amended C8 at a concrete zero-income request. -/
theorem handler_rejects_zero_income_witness :
    zeroIncomeRequest.monthlyIncome = 0 ∧
    financialAssessmentHandler zeroIncomeRequest = .error "Missing required fields" :=
  ⟨by norm_num [zeroIncomeRequest],
   handler_rejects_zero_income zeroIncomeRequest (by norm_num [zeroIncomeRequest])⟩

/-! GoalPlanProjector (src/services/aiService.ts, generateMockFinancialPlan) -/

/-- The riskTolerance enum conservative | moderate | aggressive. -/
inductive RiskTier
  | conservative
  | moderate
  | aggressive
deriving DecidableEq, Repr

/-- The targetGoal enum retirement | home | education | wealth. -/
inductive TargetGoal
  | retirement
  | home
  | education
  | wealth
deriving DecidableEq, Repr

/-- Structure `FinancialPlanRequest` of aiService.ts (`timeHorizon` in years). -/
structure FinancialPlanRequest where
  age : ℚ
  income : ℚ
  currentSavings : ℚ
  targetGoal : TargetGoal
  targetAmount : ℚ
  timeHorizon : ℕ
  riskTolerance : RiskTier
deriving DecidableEq, Repr

/-- Structure `MonthlyPlan` of aiService.ts. -/
structure MonthlyPlan where
  month : ℕ
  savings : ℚ
  investments : ℚ
  total : ℚ
  milestone : String
deriving DecidableEq, Repr

/-- Source: `const monthlySavings = (request.targetAmount - request.currentSavings) /
(request.timeHorizon * 12)`. -/
def monthlySavingsOf (req : FinancialPlanRequest) : ℚ :=
  (req.targetAmount - req.currentSavings) / ((req.timeHorizon : ℚ) * 12)

/-- The loop body of `generateMockFinancialPlan` for a given month (1-based):
`savings = monthlySavings*0.6`, `investments = monthlySavings*0.4`, pushed as
`{month, savings*month, investments*month*(1+bonus), currentSavings +
savings*month + investments*month, milestone}`.  Note the `total` field adds
`investments*month` without the bonus factor. -/
def monthlyPlanPoint (req : FinancialPlanRequest) (month : ℕ) : MonthlyPlan :=
  { month := month
    savings := monthlySavingsOf req * 0.6 * (month : ℚ)
    investments := monthlySavingsOf req * 0.4 * (month : ℚ) *
      (1 + (if req.riskTolerance = .aggressive then 0.01 else 0.005))
    total := req.currentSavings + monthlySavingsOf req * 0.6 * (month : ℚ) +
      monthlySavingsOf req * 0.4 * (month : ℚ)
    milestone := if month % 12 = 0 then "Year " ++ toString (month / 12) ++ " milestone" else "" }

/-- The `monthlyPlans` array: months 1 .. timeHorizon*12 in order. -/
def monthlyPlansOf (req : FinancialPlanRequest) : List MonthlyPlan :=
  (List.range (req.timeHorizon * 12)).map (fun i => monthlyPlanPoint req (i + 1))

/-- Structure `FinancialPlan` restricted to the computed fields (`summary` and
`milestones` are display strings built with locale formatting). -/
structure FinancialPlan where
  monthlyPlans : List MonthlyPlan
  recommendations : List String
deriving DecidableEq, Repr

/-- Function `generateMockFinancialPlan` of aiService.ts. -/
def generateMockFinancialPlan (req : FinancialPlanRequest) : FinancialPlan :=
  { monthlyPlans := monthlyPlansOf req
    recommendations :=
      ["Automate monthly savings transfers",
       "Diversify investments based on risk tolerance",
       "Review and adjust plan quarterly",
       "Consider tax-advantaged accounts"] }

/-- The worked example of the spec: targetAmount 120000, no savings, 10 years,
moderate risk. -/
def examplePlanRequest : FinancialPlanRequest :=
  { age := 30
    income := 0
    currentSavings := 0
    targetGoal := .wealth
    targetAmount := 120000
    timeHorizon := 10
    riskTolerance := .moderate }

/-- Indexing the plan list: entry `i` is the point for month `i+1`. -/
lemma monthlyPlansOf_getD (req : FinancialPlanRequest) (i : ℕ)
    (h : i < req.timeHorizon * 12) :
    (monthlyPlansOf req).getD i ⟨0, 0, 0, 0, ""⟩ = monthlyPlanPoint req (i + 1) := by
  unfold monthlyPlansOf
  rw [List.getD_eq_getElem?_getD, List.getElem?_map, List.getElem?_range h]
  rfl

/-- C2 counterexample: at the worked example of the spec the plan entry for
month 120 has total 120000, not 120240 — the source adds
`investments * month` to `total` WITHOUT the riskTolerance bonus factor
(`total: request.currentSavings + savings * month + investments * month`). -/
theorem examplePlan_month120_total :
    monthlySavingsOf examplePlanRequest = 1000 ∧
    ((generateMockFinancialPlan examplePlanRequest).monthlyPlans.getD 119 ⟨0, 0, 0, 0, ""⟩).month
      = 120 ∧
    ((generateMockFinancialPlan examplePlanRequest).monthlyPlans.getD 119 ⟨0, 0, 0, 0, ""⟩).total
      = 120000 ∧
    (120000 : ℚ) ≠ 120240 := by
  have h := monthlyPlansOf_getD examplePlanRequest 119 (by norm_num [examplePlanRequest])
  refine ⟨by norm_num [monthlySavingsOf, examplePlanRequest], ?_, ?_, by norm_num⟩ <;>
    simp only [generateMockFinancialPlan, h] <;>
    norm_num [monthlyPlanPoint, monthlySavingsOf, examplePlanRequest,
      if_neg (show RiskTier.moderate ≠ RiskTier.aggressive by decide)]

/-- C2 amended: with targetAmount 120000, currentSavings 0, 10 years, moderate
risk, monthlySavings = 1000 and the month-120 entry has savings 72000,
investments 48240 (bonus 0.005 applied to the investments field only) and
total 0 + 72000 + 48000 = 120000 — the bonus factor is not part of `total`. -/
theorem examplePlan_month120_fields :
    monthlySavingsOf examplePlanRequest = 1000 ∧
    ((generateMockFinancialPlan examplePlanRequest).monthlyPlans.getD 119 ⟨0, 0, 0, 0, ""⟩).month
      = 120 ∧
    ((generateMockFinancialPlan examplePlanRequest).monthlyPlans.getD 119 ⟨0, 0, 0, 0, ""⟩).savings
      = 72000 ∧
    ((generateMockFinancialPlan examplePlanRequest).monthlyPlans.getD 119 ⟨0, 0, 0, 0, ""⟩).investments
      = 48240 ∧
    ((generateMockFinancialPlan examplePlanRequest).monthlyPlans.getD 119 ⟨0, 0, 0, 0, ""⟩).total
      = 120000 := by
  have h := monthlyPlansOf_getD examplePlanRequest 119 (by norm_num [examplePlanRequest])
  refine ⟨by norm_num [monthlySavingsOf, examplePlanRequest], ?_, ?_, ?_, ?_⟩ <;>
    simp only [generateMockFinancialPlan, h] <;>
    norm_num [monthlyPlanPoint, monthlySavingsOf, examplePlanRequest,
      if_neg (show RiskTier.moderate ≠ RiskTier.aggressive by decide)]

/-- The plan has one entry per month of the horizon. -/
lemma monthlyPlansOf_length (req : FinancialPlanRequest) :
    (monthlyPlansOf req).length = req.timeHorizon * 12 := by
  simp [monthlyPlansOf]

/-- C7: with a positive horizon and targetAmount ≥ currentSavings (so the
monthly contribution is non-negative), the `total` field of the plan is
non-decreasing across consecutive months. -/
theorem monthlyPlans_total_monotone (req : FinancialPlanRequest)
    (hh : 0 < req.timeHorizon) (ht : req.currentSavings ≤ req.targetAmount)
    (i : ℕ) (hi : i + 1 < (monthlyPlansOf req).length) :
    ((monthlyPlansOf req).getD i ⟨0, 0, 0, 0, ""⟩).total ≤
      ((monthlyPlansOf req).getD (i + 1) ⟨0, 0, 0, 0, ""⟩).total := by
  rw [monthlyPlansOf_length] at hi
  rw [monthlyPlansOf_getD req i (by omega), monthlyPlansOf_getD req (i + 1) (by omega)]
  have h1 : (1 : ℚ) ≤ (req.timeHorizon : ℚ) := by exact_mod_cast hh
  have hms : 0 ≤ monthlySavingsOf req := by
    unfold monthlySavingsOf
    exact div_nonneg (by linarith) (by linarith)
  simp only [monthlyPlanPoint]
  have hm : ((i + 1 : ℕ) : ℚ) ≤ ((i + 1 + 1 : ℕ) : ℚ) := by push_cast; linarith
  nlinarith [mul_le_mul_of_nonneg_left hm hms]

/-- Witness for C7 at the worked plan example, months 1 and 2. -/
theorem monthlyPlans_total_monotone_witness :
    0 < examplePlanRequest.timeHorizon ∧
    examplePlanRequest.currentSavings ≤ examplePlanRequest.targetAmount ∧
    0 + 1 < (monthlyPlansOf examplePlanRequest).length ∧
    ((monthlyPlansOf examplePlanRequest).getD 0 ⟨0, 0, 0, 0, ""⟩).total ≤
      ((monthlyPlansOf examplePlanRequest).getD 1 ⟨0, 0, 0, 0, ""⟩).total := by
  refine ⟨by norm_num [examplePlanRequest], by norm_num [examplePlanRequest],
    by simp [monthlyPlansOf_length, examplePlanRequest], ?_⟩
  exact monthlyPlans_total_monotone examplePlanRequest
    (by norm_num [examplePlanRequest]) (by norm_num [examplePlanRequest]) 0
    (by simp [monthlyPlansOf_length, examplePlanRequest])

/-! ScenarioProjector (src/components/InvestmentScenarioSimulator.tsx).

Values live in `ℝ` because the source uses `Math.sqrt` and `Math.pow`.  The
unseeded `Math.random()` stream is an explicit parameter `rand : ℕ → ℝ`; the
k-th call of `Math.random()` returns `rand k`.  Each simulated month makes
three draws, in source order conservative, moderate, aggressive, so month
index `k` (0-based over the whole run) uses draws `3k`, `3k+1`, `3k+2`. -/

/-- One entry of the `FINANCIAL_ASSUMPTIONS` table. -/
structure Assumptions where
  annualReturn : ℝ
  volatility : ℝ
  maxDrawdown : ℝ
  description : String

/-- The fixed `FINANCIAL_ASSUMPTIONS` table. -/
def FINANCIAL_ASSUMPTIONS : RiskTier → Assumptions
  | .conservative =>
    { annualReturn := 0.05, volatility := 0.08, maxDrawdown := 0.15
      description := "Bonds, CDs, Money Market Funds" }
  | .moderate =>
    { annualReturn := 0.08, volatility := 0.12, maxDrawdown := 0.25
      description := "Balanced Portfolio (60% Stocks, 40% Bonds)" }
  | .aggressive =>
    { annualReturn := 0.11, volatility := 0.18, maxDrawdown := 0.40
      description := "Growth Stocks, Equity Funds, Real Estate" }

/-- Structure `ProjectionData` of the simulator. -/
structure ProjectionData where
  year : ℕ
  conservative : ℝ
  moderate : ℝ
  aggressive : ℝ

/-- JS `Math.round` on a real value. -/
noncomputable def jsRoundR (x : ℝ) : ℤ := ⌊x + 1/2⌋

/-- One simulated month (month index `k`, 0-based over the whole run): add the
monthly contribution to each of the three running values, then multiply each by
`1 + (monthlyReturn + (draw - 0.5) * monthlyVolatility * 0.5)` with its own
draw. -/
noncomputable def stepMonth (mr mv contrib : ℝ) (rand : ℕ → ℝ) (k : ℕ)
    (v : ℝ × ℝ × ℝ) : ℝ × ℝ × ℝ :=
  ((v.1 + contrib) * (1 + (mr + (rand (3 * k) - 0.5) * mv * 0.5)),
   (v.2.1 + contrib) * (1 + (mr + (rand (3 * k + 1) - 0.5) * mv * 0.5)),
   (v.2.2 + contrib) * (1 + (mr + (rand (3 * k + 2) - 0.5) * mv * 0.5)))

/-- Run `n` consecutive months starting at global month index `k`. -/
noncomputable def runMonths (mr mv contrib : ℝ) (rand : ℕ → ℝ) :
    ℕ → ℕ → ℝ × ℝ × ℝ → ℝ × ℝ × ℝ
  | 0, _, v => v
  | n + 1, k, v => runMonths mr mv contrib rand n (k + 1) (stepMonth mr mv contrib rand k v)

/-- The three running values after `y` full years of the simulation loop. -/
noncomputable def valuesAfterYear (mr mv contrib init : ℝ) (rand : ℕ → ℝ) : ℕ → ℝ × ℝ × ℝ
  | 0 => (init, init, init)
  | y + 1 => runMonths mr mv contrib rand 12 (y * 12) (valuesAfterYear mr mv contrib init rand y)

/-- Function `calculateProjection` of the simulator: year 0 is pushed unrounded before
any contribution or growth; each later year pushes the rounded running
values.  The `scenario` argument only selects which assumptions drive
`monthlyReturn`/`monthlyVolatility` (exactly as in the source, where all three
fields of one run share them). -/
noncomputable def calculateProjection (initialAmount : ℝ) (duration : ℕ)
    (scenario : RiskTier) (monthlyContribution : ℝ) (rand : ℕ → ℝ) :
    List ProjectionData :=
  let assumptions := FINANCIAL_ASSUMPTIONS scenario
  let mr := assumptions.annualReturn / 12
  let mv := assumptions.volatility / Real.sqrt 12
  (List.range (duration + 1)).map fun year =>
    if year = 0 then
      { year := 0, conservative := initialAmount, moderate := initialAmount
        aggressive := initialAmount }
    else
      let v := valuesAfterYear mr mv monthlyContribution initialAmount rand year
      { year := year, conservative := (jsRoundR v.1 : ℝ)
        moderate := (jsRoundR v.2.1 : ℝ), aggressive := (jsRoundR v.2.2 : ℝ) }

/-- Indexing `projections[...][scenario]`: field selection by tier name. -/
def tierValue (p : ProjectionData) : RiskTier → ℝ
  | .conservative => p.conservative
  | .moderate => p.moderate
  | .aggressive => p.aggressive

/-- Structure `ScenarioResult` of the simulator. -/
structure ScenarioResult where
  finalValue : ℝ
  totalReturn : ℝ
  annualizedReturn : ℝ
  maxDrawdown : ℝ
  volatility : ℝ

/-- Function `calculateScenarioResults` of the simulator: look at the last projection
entry of the requested tier; `annualizedReturn` uses exponent
`1 / projections.length` (the number of yearly data points, year 0 included);
`maxDrawdown` and `volatility` come straight from the assumption table. -/
noncomputable def calculateScenarioResults (initialAmount : ℝ)
    (projections : List ProjectionData) (scenario : RiskTier) : ScenarioResult :=
  let finalValue := tierValue (projections.getD (projections.length - 1)
    { year := 0, conservative := 0, moderate := 0, aggressive := 0 }) scenario
  let assumptions := FINANCIAL_ASSUMPTIONS scenario
  { finalValue := finalValue
    totalReturn := finalValue - initialAmount
    annualizedReturn :=
      (Real.rpow (finalValue / initialAmount) (1 / (projections.length : ℝ)) - 1) * 100
    maxDrawdown := assumptions.maxDrawdown * 100
    volatility := assumptions.volatility * 100 }

/-- The projection list always has `duration + 1` entries. -/
lemma calculateProjection_length (initialAmount : ℝ) (duration : ℕ)
    (scenario : RiskTier) (monthlyContribution : ℝ) (rand : ℕ → ℝ) :
    (calculateProjection initialAmount duration scenario monthlyContribution rand).length
      = duration + 1 := by
  simp [calculateProjection]

/-- C5: for every duration, initial amount, contribution, tier and random
stream, the projection list has exactly duration + 1 entries, entry k carries
year = k (the year fields read 0, 1, ..., duration in order), and the year-0
entry equals the initial amount in all three tier fields, with no contribution
or growth applied. -/
theorem calculateProjection_structure (initialAmount : ℝ) (duration : ℕ)
    (scenario : RiskTier) (monthlyContribution : ℝ) (rand : ℕ → ℝ) :
    (calculateProjection initialAmount duration scenario monthlyContribution rand).length
      = duration + 1 ∧
    (calculateProjection initialAmount duration scenario monthlyContribution rand).map
      ProjectionData.year = List.range (duration + 1) ∧
    (calculateProjection initialAmount duration scenario monthlyContribution rand).getD 0
      { year := 0, conservative := 0, moderate := 0, aggressive := 0 } =
      { year := 0, conservative := initialAmount, moderate := initialAmount
        aggressive := initialAmount } := by
  refine ⟨calculateProjection_length _ _ _ _ _, ?_, ?_⟩
  · unfold calculateProjection
    rw [List.map_map]
    have h : ∀ y ∈ List.range (duration + 1),
        (ProjectionData.year ∘ fun year =>
          if year = 0 then
            ({ year := 0, conservative := initialAmount, moderate := initialAmount
               aggressive := initialAmount } : ProjectionData)
          else
            let v := valuesAfterYear ((FINANCIAL_ASSUMPTIONS scenario).annualReturn / 12)
              ((FINANCIAL_ASSUMPTIONS scenario).volatility / Real.sqrt 12)
              monthlyContribution initialAmount rand year
            { year := year, conservative := (jsRoundR v.1 : ℝ)
              moderate := (jsRoundR v.2.1 : ℝ), aggressive := (jsRoundR v.2.2 : ℝ) }) y
          = id y := by
      intro y _
      by_cases hy : y = 0 <;> simp [hy]
    rw [List.map_congr_left h, List.map_id]
  · unfold calculateProjection
    rw [List.getD_eq_getElem?_getD, List.getElem?_map, List.getElem?_range (by omega)]
    simp

/-- C4: for every run with positive initial amount and duration at least one
year, the annualized return of each tier equals
`((finalValue/initialAmount)^(1/(duration+1)) - 1) * 100` — the exponent
denominator counts the yearly data points including year 0 — and the
maxDrawdown and volatility of each tier are the fixed table values times 100 (15/8
conservative, 25/12 moderate, 40/18 aggressive), independent of the simulated
path. -/
theorem calculateScenarioResults_stats (initialAmount : ℝ) (duration : ℕ)
    (tier : RiskTier) (monthlyContribution : ℝ) (rand : ℕ → ℝ)
    (hinit : 0 < initialAmount) (hdur : 1 ≤ duration) :
    (calculateScenarioResults initialAmount
        (calculateProjection initialAmount duration tier monthlyContribution rand)
        tier).annualizedReturn =
      (Real.rpow ((calculateScenarioResults initialAmount
          (calculateProjection initialAmount duration tier monthlyContribution rand)
          tier).finalValue / initialAmount) (1 / ((duration : ℝ) + 1)) - 1) * 100 ∧
    (calculateScenarioResults initialAmount
        (calculateProjection initialAmount duration tier monthlyContribution rand)
        tier).maxDrawdown =
      (match tier with | .conservative => 15 | .moderate => 25 | .aggressive => 40) ∧
    (calculateScenarioResults initialAmount
        (calculateProjection initialAmount duration tier monthlyContribution rand)
        tier).volatility =
      (match tier with | .conservative => 8 | .moderate => 12 | .aggressive => 18) := by
  have hlen := calculateProjection_length initialAmount duration tier monthlyContribution rand
  refine ⟨?_, ?_, ?_⟩
  · simp only [calculateScenarioResults, hlen]
    push_cast
    ring_nf
  · cases tier <;> simp [calculateScenarioResults, FINANCIAL_ASSUMPTIONS] <;> norm_num
  · cases tier <;> simp [calculateScenarioResults, FINANCIAL_ASSUMPTIONS] <;> norm_num

/-- Witness for C4 at initialAmount 1, duration 1, conservative tier, zero
contribution, all draws 0. -/
theorem calculateScenarioResults_stats_witness :
    (0 : ℝ) < 1 ∧ 1 ≤ 1 ∧
    ((calculateScenarioResults 1
        (calculateProjection 1 1 .conservative 0 (fun _ => 0))
        .conservative).annualizedReturn =
      (Real.rpow ((calculateScenarioResults 1
          (calculateProjection 1 1 .conservative 0 (fun _ => 0))
          .conservative).finalValue / 1) (1 / ((1 : ℕ) + 1 : ℝ)) - 1) * 100 ∧
    (calculateScenarioResults 1
        (calculateProjection 1 1 .conservative 0 (fun _ => 0))
        .conservative).maxDrawdown = 15 ∧
    (calculateScenarioResults 1
        (calculateProjection 1 1 .conservative 0 (fun _ => 0))
        .conservative).volatility = 8) :=
  ⟨by norm_num, le_refl 1,
   calculateScenarioResults_stats 1 1 .conservative 0 (fun _ => 0) (by norm_num) (le_refl 1)⟩

/-! WealthProjector allocation (src/components/WealthManagementTools.tsx) -/

/-- Structure `WealthData` of WealthManagementTools.tsx. -/
structure WealthData where
  age : ℚ
  retirementAge : ℚ
  currentIncome : ℚ
  currentAssets : ℚ
  currentLiabilities : ℚ
  monthlySavings : ℚ
  investmentReturn : ℚ
  taxBracket : ℚ
  estateValue : ℚ
  riskTolerance : RiskTier
deriving DecidableEq, Repr

/-- Structure `AssetAllocation` of WealthManagementTools.tsx. -/
structure AssetAllocation where
  category : String
  percentage : ℚ
  value : ℚ
deriving DecidableEq, Repr

/-- The `allocation` array built inside `calculateRetirementProjection`:
Stocks, Bonds, Real Estate with percentages and value multipliers selected by
risk tier, applied to net worth `currentAssets - currentLiabilities`. -/
def calculateAllocation (w : WealthData) : List AssetAllocation :=
  [{ category := "Stocks"
     percentage :=
       if w.riskTolerance = .aggressive then 80
       else if w.riskTolerance = .moderate then 60 else 40
     value := (w.currentAssets - w.currentLiabilities) *
       (if w.riskTolerance = .aggressive then 0.8
        else if w.riskTolerance = .moderate then 0.6 else 0.4) },
   { category := "Bonds"
     percentage :=
       if w.riskTolerance = .aggressive then 10
       else if w.riskTolerance = .moderate then 30 else 50
     value := (w.currentAssets - w.currentLiabilities) *
       (if w.riskTolerance = .aggressive then 0.1
        else if w.riskTolerance = .moderate then 0.3 else 0.5) },
   { category := "Real Estate"
     percentage := 10
     value := (w.currentAssets - w.currentLiabilities) * 0.1 }]

/-- C6: for every wealth profile the recommended allocation is exactly the
three categories Stocks, Bonds, Real Estate with percentages {80,10,10}
(aggressive), {60,30,10} (moderate), {40,50,10} (conservative); the
percentages sum to 100 for every tier; each value equals
percentage / 100 × (currentAssets − currentLiabilities). -/
theorem calculateAllocation_spec (w : WealthData) :
    (calculateAllocation w).map AssetAllocation.category = ["Stocks", "Bonds", "Real Estate"] ∧
    (calculateAllocation w).map AssetAllocation.percentage =
      (match w.riskTolerance with
       | .aggressive => [80, 10, 10]
       | .moderate => [60, 30, 10]
       | .conservative => [40, 50, 10]) ∧
    ((calculateAllocation w).map AssetAllocation.percentage).sum = 100 ∧
    ∀ a ∈ calculateAllocation w,
      a.value = a.percentage / 100 * (w.currentAssets - w.currentLiabilities) := by
  refine ⟨?_, ?_, ?_, ?_⟩
  · simp [calculateAllocation]
  · rcases hw : w.riskTolerance <;> simp [calculateAllocation, hw]
  · rcases hw : w.riskTolerance <;> simp [calculateAllocation, hw] <;> norm_num
  · intro a ha
    rcases hw : w.riskTolerance <;>
      simp only [calculateAllocation, hw, List.mem_cons, List.mem_singleton,
        List.not_mem_nil, or_false] at ha <;>
      rcases ha with rfl | rfl | rfl <;> simp <;> ring

end Valunatics
